import Mathlib

/-!
Shallow embedding of the worker-pool core of the traffic-analysis API
(`main.py`, `worker_pool.py`, `traffic_worker.py`).

Modelling conventions:
* A job payload is an opaque value of type `π` (the code builds a dict of
  coordinates, flags and the base url; none of its fields matter to the
  pool/correlator logic, so the payload is kept abstract).
* The external analysis call (`analyze_location_traffic`) is a parameter
  `analyze : π → Except String (Option α)`: a raised exception becomes
  `Except.error msg`, a returned value becomes `Except.ok v` where `v` is
  `Option α` because Python allows the analysis to return `None`.
* The result dicts pushed by `traffic_worker.worker_loop` are modelled by
  `JobResult`: `ok` is `res["ok"]`, `result` is `res.get("result")`
  (`none` when the key is absent or the value is `None`), `error` is
  `res["error"]` (empty for success dicts, which carry no such key).
  The `location` and `traceback` keys are only echoed into DB persistence
  and log output, which is outside the modelled core, so they are omitted.
* Blocking queue reads are modelled by passing the sequence of values the
  reads would return: the correlator in `process_locations` receives the
  `stream` of completions in arrival order, a worker receives the list of
  messages it dequeues from the job channel.
* `request_id` (a fresh uuid) and the `saved_to_db` / `saved_to_static`
  echo fields of the responses are omitted; the remaining response fields
  are modelled exactly.
-/

namespace TrafficApi

/-- One result dict pushed by a worker onto the result queue
(`traffic_worker.py`, `worker_loop`). -/
structure JobResult (α : Type) where
  ok : Bool
  result : Option α := none
  error : String := ""
  deriving DecidableEq, Repr

/-- An HTTP error raised by a handler (`fastapi.HTTPException`). -/
structure HTTPError where
  status : Nat
  detail : String
  deriving DecidableEq, Repr

/-- The modelled fields of `models.MultiLocationResponse` as filled in by
`process_locations` in `main.py`. -/
structure MultiLocationResponse (α : Type) where
  locations_count : Nat
  completed : Nat
  result : List α
  error : String
  deriving DecidableEq, Repr

/-- A message on the job channel: either the `"STOP"` sentinel enqueued by
`WorkerPool.stop`, or a `(idx, loc_dict)` pair enqueued by
`WorkerPool.dispatch`. -/
inductive JobMsg (π : Type) where
  | stop
  | job (idx : Nat) (loc : π)
  deriving DecidableEq, Repr

/-- Execution of one job inside the worker loop's `try`/`except`
(`traffic_worker.py` lines 68-96): a successful analysis call pushes
`(idx, {"ok": True, "location": ..., "result": result})`; a raised
exception is caught and pushed as
`(idx, {"ok": False, "location": ..., "error": str(e), "traceback": tb})`. -/
def execJob {π α : Type} (analyze : π → Except String (Option α))
    (idx : Nat) (loc : π) : Nat × JobResult α :=
  match analyze loc with
  | .ok v => (idx, { ok := true, result := v, error := "" })
  | .error e => (idx, { ok := false, result := none, error := e })

/-- The message-consumption loop of `worker_loop` (`traffic_worker.py`
lines 60-96), given the list of messages this worker dequeues from the job
channel.  Returns the results it pushes to the result queue, in order,
paired with `true` iff it reached the `break` on the `"STOP"` sentinel
(clean transition to SHUTDOWN).  An empty message list means the worker is
still blocked on `job_queue.get()`, hence `false`. -/
def worker_steps {π α : Type} (analyze : π → Except String (Option α)) :
    List (JobMsg π) → List (Nat × JobResult α) × Bool
  | [] => ([], false)
  | .stop :: _ => ([], true)
  | .job idx loc :: rest =>
    let r := worker_steps analyze rest
    (execJob analyze idx loc :: r.1, r.2)

/-- A worker process from its start (`worker_entrypoint`): the INIT phase
(Playwright start, browser launch, `setup_context_with_cookies`,
`traffic_worker.py` lines 24-58) runs outside any `try`/`except`, so a
failure there propagates out of `worker_loop`, kills the child process and
produces nothing on the result queue.  `init` is the outcome of that INIT
phase.  The boolean is `true` iff the worker reached a clean sentinel
shutdown. -/
def worker_boot {π α : Type} (init : Except String Unit)
    (analyze : π → Except String (Option α)) (msgs : List (JobMsg π)) :
    List (Nat × JobResult α) × Bool :=
  match init with
  | .error _ => ([], false)
  | .ok _ => worker_steps analyze msgs

/-- The state of `worker_pool.WorkerPool`: configured worker count, the two
queues (as lists, front = next element dequeued), and the spawned process
handles, each reduced to its `is_alive()` flag. -/
structure WorkerPool (π α : Type) where
  num_workers : Nat
  job_queue : List (JobMsg π) := []
  result_queue : List (Nat × JobResult α) := []
  processes : List Bool := []
  deriving DecidableEq, Repr

/-- `WorkerPool.start` (`worker_pool.py` lines 16-24): spawns
`num_workers` processes and appends their handles; `Process.start` returns
as soon as the child is forked, so every freshly spawned handle reports
alive. -/
def WorkerPool.start {π α : Type} (p : WorkerPool π α) : WorkerPool π α :=
  { p with processes := p.processes ++ List.replicate p.num_workers true }

/-- `WorkerPool.start` refined with the INIT outcome of each spawned
worker: `p.start()` itself only forks and returns — it never inspects the
child, so it returns a normal pool state in all cases; a worker whose INIT
phase failed dies on its own and its handle stops reporting alive. -/
def start_spawn {π α : Type} (inits : List (Except String Unit))
    (p : WorkerPool π α) : WorkerPool π α :=
  { p with processes := p.processes ++ inits.map Except.isOk }

/-- `WorkerPool.stop` (`worker_pool.py` lines 26-31): puts one `"STOP"`
sentinel per configured worker on the job queue, then joins every
process. -/
def WorkerPool.stop {π α : Type} (p : WorkerPool π α) : WorkerPool π α :=
  { p with job_queue := p.job_queue ++ List.replicate p.num_workers JobMsg.stop }

/-- `WorkerPool.dispatch` (`worker_pool.py` lines 33-37): non-blocking
enqueue of `(idx, loc_dict)`. -/
def WorkerPool.dispatch {π α : Type} (p : WorkerPool π α) (idx : Nat) (loc : π) :
    WorkerPool π α :=
  { p with job_queue := p.job_queue ++ [JobMsg.job idx loc] }

/-- The worker-pool section of the `/health` endpoint (`main.py`,
`health_check`): reports the configured count, `sum(p.is_alive() ...)`,
the two queue depths, and `"ok" if alive == worker_count else "degraded"`.
It is a pure function of the pool state: it mutates nothing. -/
structure WorkerPoolHealth where
  workers_expected : Nat
  workers_alive : Nat
  worker_pool_status : String
  job_queue_size : Nat
  result_queue_size : Nat
  deriving DecidableEq, Repr

/-- The health read-out over a pool state (`main.py` lines 362-385). -/
def health_check {π α : Type} (p : WorkerPool π α) : WorkerPoolHealth :=
  let alive := p.processes.count true
  { workers_expected := p.num_workers
    workers_alive := alive
    worker_pool_status := if alive = p.num_workers then "ok" else "degraded"
    job_queue_size := p.job_queue.length
    result_queue_size := p.result_queue.length }

/-- Python dict assignment `results[idx] = res` on an association list:
replaces an existing binding, otherwise appends. -/
def dictInsert {α : Type} (d : List (Nat × JobResult α)) (k : Nat)
    (v : JobResult α) : List (Nat × JobResult α) :=
  if d.any (fun p => p.1 == k) then
    d.map (fun p => if p.1 == k then (k, v) else p)
  else d ++ [(k, v)]

/-- The collection loop of `process_locations` (`main.py` lines 150-160):
for each retrieved `(idx, res)`, an `ok` result is stored under `idx` in
the `results` dict, otherwise `res["error"]` is appended to `errors`. -/
def collectLoop {α : Type} :
    List (Nat × JobResult α) → List String → List (Nat × JobResult α) →
    List (Nat × JobResult α) × List String
  | d, es, [] => (d, es)
  | d, es, (i, r) :: cs =>
    if r.ok then collectLoop (dictInsert d i r) es cs
    else collectLoop d (es ++ [r.error]) cs

/-- Insertion step of sorting the dict items by key (`sorted(results.items())`;
keys are unique, so tuple comparison reduces to key comparison). -/
def insertByKey {α : Type} (x : Nat × JobResult α) :
    List (Nat × JobResult α) → List (Nat × JobResult α)
  | [] => [x]
  | y :: ys => if x.1 ≤ y.1 then x :: y :: ys else y :: insertByKey x ys

/-- `sorted(results.items())` as insertion sort on the key. -/
def sortByKey {α : Type} : List (Nat × JobResult α) → List (Nat × JobResult α)
  | [] => []
  | x :: xs => insertByKey x (sortByKey xs)

/-- The `ordered_results` comprehension of `process_locations` (`main.py`
lines 163-167): sorted items whose value is truthy (a result dict always
is) and whose `"result"` entry is not `None`. -/
def orderedResults {α : Type} (d : List (Nat × JobResult α)) :
    List (Nat × JobResult α) :=
  (sortByKey d).filter (fun p => p.2.result.isSome)

/-- Observable trace of one `/process-locations` call: the jobs it
dispatched, the completions it retrieved, and the HTTP outcome. -/
structure BatchTrace (π α : Type) where
  dispatched : List (Nat × π)
  retrieved : List (Nat × JobResult α)
  response : Except HTTPError (MultiLocationResponse α)
  deriving Repr

/-- `process_locations` (`main.py` lines 120-180, persistence omitted):
rejects an empty or oversized batch with HTTP 400 before any dispatch;
otherwise dispatches `(idx, loc)` for the locations in submission order,
performs exactly `len(locations)` blocking retrievals (the first
`len(locations)` elements of the arrival stream), accumulates them, and
builds the response from the sorted, `None`-filtered results and the
joined error strings. -/
def processLocations {π α : Type} (locations : List π)
    (stream : List (Nat × JobResult α)) : BatchTrace π α :=
  if locations.isEmpty then
    { dispatched := [], retrieved := []
      response := .error ⟨400, "No locations provided"⟩ }
  else if locations.length > 20 then
    { dispatched := [], retrieved := []
      response := .error ⟨400, "Max 20 locations per request"⟩ }
  else
    let dispatched := locations.enum
    let retrieved := stream.take locations.length
    let c := collectLoop [] [] retrieved
    let ordered := orderedResults c.1
    { dispatched := dispatched
      retrieved := retrieved
      response := .ok
        { locations_count := locations.length
          completed := ordered.length
          result := ordered.filterMap (fun p => p.2.result)
          error := String.intercalate "\n" c.2 } }

/-- Observable trace of one `/process-location` (single job) call. -/
structure SingleTrace (π α : Type) where
  dispatched : List (Nat × π)
  response : Except HTTPError (Option α)
  deriving Repr

/-- `get_job` for `/process-location` (`main.py` lines 229-256, persistence
omitted): dispatches the payload under index 0, performs one blocking
retrieval, and on `not result["ok"]` executes a bare `raise` with no active
exception — Python raises `RuntimeError("No active exception to re-raise")`,
which the surrounding handler converts to HTTP 500 with detail
`"Processing-one failed: " + str(e)`.  On success it answers with
`result["result"]`. -/
def getJob {π α : Type} (loc : π) (res : Nat × JobResult α) : SingleTrace π α :=
  { dispatched := [(0, loc)]
    response :=
      if res.2.ok then .ok res.2.result
      else .error ⟨500, "Processing-one failed: No active exception to re-raise"⟩ }

/-- The completions of a batch in canonical submission order: job `i`
completed with outcome `outcome i`.  An arbitrary arrival order is a
permutation of this list. -/
def canonicalResults {α : Type} (outcome : Nat → JobResult α) (M : Nat) :
    List (Nat × JobResult α) :=
  (List.range M).map (fun i => (i, outcome i))

end TrafficApi

namespace TrafficApi

/-- C3: a job whose execution raises is caught by the worker loop's
`try`/`except`, pushed as a `Failure` result carrying the job's index and
the error message, and the loop returns to its blocking read: the worker
is not terminated and successfully processes the next job it dequeues. -/
theorem worker_failure_isolated {π α : Type}
    (analyze : π → Except String (Option α)) (i j : Nat) (loc loc2 : π)
    (rest : List (JobMsg π)) (e : String) (v : Option α)
    (hfail : analyze loc = .error e) (hok : analyze loc2 = .ok v) :
    worker_steps analyze (.job i loc :: .job j loc2 :: rest) =
      ((i, ⟨false, none, e⟩) :: (j, ⟨true, v, ""⟩) :: (worker_steps analyze rest).1,
       (worker_steps analyze rest).2) := by
  simp [worker_steps, execJob, hfail, hok]

/-- Witness for C3: a worker whose first job fails pushes the failure and
still completes the following job. -/
theorem worker_failure_isolated_witness :
    worker_steps (π := Bool) (α := Nat)
        (fun b => if b then .error "bad" else .ok (some 5))
        [.job 0 true, .job 1 false] =
      ([(0, ⟨false, none, "bad"⟩), (1, ⟨true, some 5, ""⟩)], false) := by
  have h := worker_failure_isolated
    (fun b : Bool => if b then (Except.error "bad" : Except String (Option Nat))
      else .ok (some 5)) 0 1 true false [] "bad" (some 5) rfl rfl
  simpa [worker_steps] using h

/-- C5 counterexample: the empty batch does not return an empty success
response; the code rejects it with HTTP 400 "No locations provided". -/
theorem empty_batch_cex :
    (processLocations ([] : List Unit) ([] : List (Nat × JobResult Unit))).response.isOk
        = false ∧
    (processLocations ([] : List Unit) ([] : List (Nat × JobResult Unit))).response =
      .error ⟨400, "No locations provided"⟩ :=
  ⟨rfl, rfl⟩

/-- C5 (amended): an empty batch short-circuits — no dispatch and no
retrieval — but instead of an empty success response it is rejected
immediately with HTTP 400 "No locations provided". -/
theorem empty_batch_rejected {π α : Type} (stream : List (Nat × JobResult α)) :
    (processLocations ([] : List π) stream).dispatched = [] ∧
    (processLocations ([] : List π) stream).retrieved = [] ∧
    (processLocations ([] : List π) stream).response =
      .error ⟨400, "No locations provided"⟩ :=
  ⟨rfl, rfl, rfl⟩

/-- C6: `stop()` enqueues exactly `num_workers` sentinel markers on the job
channel; on an idle pool (empty job queue) the queue then holds exactly the
`num_workers` sentinels, and any worker that dequeues one sentinel pushes
nothing and exits cleanly, so joining all workers returns. -/
theorem stop_enqueues_sentinels {π α : Type} (p : WorkerPool π α) :
    (p.stop).job_queue = p.job_queue ++ List.replicate p.num_workers JobMsg.stop ∧
    (p.job_queue = [] →
      (p.stop).job_queue = List.replicate p.num_workers JobMsg.stop ∧
      ∀ analyze : π → Except String (Option α),
        worker_steps analyze [JobMsg.stop] = ([], true)) := by
  refine ⟨rfl, fun h => ⟨?_, fun analyze => rfl⟩⟩
  simp [WorkerPool.stop, h]

/-- Witness for C6: an idle two-worker pool ends up with exactly two
sentinels queued and each worker exits on its sentinel. -/
theorem stop_enqueues_sentinels_witness :
    ({ num_workers := 2 } : WorkerPool Unit Unit).job_queue = [] ∧
    (({ num_workers := 2 } : WorkerPool Unit Unit).stop.job_queue =
        List.replicate 2 JobMsg.stop ∧
      ∀ analyze : Unit → Except String (Option Unit),
        worker_steps analyze [JobMsg.stop] = ([], true)) :=
  ⟨rfl, (stop_enqueues_sentinels ({ num_workers := 2 } : WorkerPool Unit Unit)).2 rfl⟩

/-- C7: the health read-out (a pure function — it mutates nothing) reports
the configured worker count, the live process count and both channel
depths, and classifies the pool with the healthy label (spelled `"ok"` in
the code) iff live equals configured, `"degraded"` otherwise; right after
`start()` on a fresh pool it reports live = configured and the healthy
label. -/
theorem health_monitor_reports {π α : Type} (q p : WorkerPool π α)
    (hfresh : p.processes = []) :
    (health_check q).workers_expected = q.num_workers ∧
    (health_check q).workers_alive = q.processes.count true ∧
    (health_check q).job_queue_size = q.job_queue.length ∧
    (health_check q).result_queue_size = q.result_queue.length ∧
    ((health_check q).worker_pool_status = "ok" ↔
      q.processes.count true = q.num_workers) ∧
    ((health_check q).worker_pool_status = "degraded" ↔
      q.processes.count true ≠ q.num_workers) ∧
    (health_check p.start).workers_alive = p.num_workers ∧
    (health_check p.start).worker_pool_status = "ok" := by
  refine ⟨rfl, rfl, rfl, rfl, ?_, ?_, ?_, ?_⟩
  · simp only [health_check]
    split
    · simp [*]
    · exact iff_of_false (by decide) (by assumption)
  · simp only [health_check]
    split
    · exact iff_of_false (by decide) (by simp [*])
    · simp [*]
  · simp [health_check, WorkerPool.start, hfresh]
  · simp [health_check, WorkerPool.start, hfresh]

/-- Witness for C7: a pool with one configured worker and processes
`[true, false]` (general read-out part) and a fresh three-worker pool
(post-start part). -/
theorem health_monitor_reports_witness :
    ({ num_workers := 3 } : WorkerPool Unit Unit).processes = [] ∧
    ((health_check ({ num_workers := 1, processes := [true, false] } :
        WorkerPool Unit Unit)).workers_expected = 1 ∧
      (health_check ({ num_workers := 1, processes := [true, false] } :
        WorkerPool Unit Unit)).workers_alive =
        ([true, false] : List Bool).count true ∧
      (health_check ({ num_workers := 1, processes := [true, false] } :
        WorkerPool Unit Unit)).job_queue_size = 0 ∧
      (health_check ({ num_workers := 1, processes := [true, false] } :
        WorkerPool Unit Unit)).result_queue_size = 0 ∧
      ((health_check ({ num_workers := 1, processes := [true, false] } :
          WorkerPool Unit Unit)).worker_pool_status = "ok" ↔
        ([true, false] : List Bool).count true = 1) ∧
      ((health_check ({ num_workers := 1, processes := [true, false] } :
          WorkerPool Unit Unit)).worker_pool_status = "degraded" ↔
        ([true, false] : List Bool).count true ≠ 1) ∧
      (health_check ({ num_workers := 3 } : WorkerPool Unit Unit).start).workers_alive = 3 ∧
      (health_check ({ num_workers := 3 } : WorkerPool Unit Unit).start).worker_pool_status
        = "ok") :=
  ⟨rfl, health_monitor_reports
    ({ num_workers := 1, processes := [true, false] } : WorkerPool Unit Unit)
    ({ num_workers := 3 } : WorkerPool Unit Unit) rfl⟩

/-- C9 counterexample: with one worker whose INIT fails, `start()` does not
fail — it returns the normal pool state (the dead worker merely stops
reporting alive), the health monitor then reports `"degraded"`, and the
aborted worker pushed nothing to the result channel: the pool silently
runs with fewer live workers, contradicting "surfaced as a pool-start
error". -/
theorem init_failure_not_surfaced_cex :
    start_spawn [Except.error "resource acquisition failed"]
        ({ num_workers := 1 } : WorkerPool Unit Unit) =
      { num_workers := 1, job_queue := [], result_queue := [], processes := [false] } ∧
    (health_check (start_spawn [Except.error "resource acquisition failed"]
        ({ num_workers := 1 } : WorkerPool Unit Unit))).worker_pool_status =
      "degraded" ∧
    worker_boot (Except.error "resource acquisition failed")
        (fun _ : Unit => (Except.ok none : Except String (Option Unit))) [] =
      ([], false) :=
  ⟨rfl, rfl, rfl⟩

/-- C9 (amended): a fatal INIT failure aborts that worker — it produces no
job outcome on the result channel and never reaches a clean shutdown — and
is never folded into a job outcome; but it is not surfaced as a pool-start
error: `start()` only forks the processes and returns a normal pool state
regardless of the workers' INIT outcomes. -/
theorem init_failure_aborts_worker {π α : Type} (e : String)
    (analyze : π → Except String (Option α)) (msgs : List (JobMsg π))
    (inits : List (Except String Unit)) (p : WorkerPool π α) :
    worker_boot (Except.error e) analyze msgs = ([], false) ∧
    (start_spawn inits p).processes = p.processes ++ inits.map Except.isOk :=
  ⟨rfl, rfl⟩

/-- C8 counterexample: for a failed job the single-job call and the
one-element batch diverge — the single call raises HTTP 500 (its bare
`raise` has no active exception), while the batch call returns a normal
partial response with `completed = 0` and the failure message. -/
theorem single_vs_batch_cex :
    (getJob () ((0, ⟨false, none, "boom"⟩) : Nat × JobResult Unit)).response =
      .error ⟨500, "Processing-one failed: No active exception to re-raise"⟩ ∧
    (processLocations [()] [((0, ⟨false, none, "boom"⟩) : Nat × JobResult Unit)]).response =
      .ok ⟨1, 0, [], "boom"⟩ := by
  constructor
  · rfl
  · rfl

/-- C8 (amended): the single-job call performs the same dispatch as a
one-element batch (one job under index 0) and one retrieval; on a
successful job carrying a result value the two calls agree — the single
response value is the sole element of the batch's success list, with
`completed = 1` — but on a failed job the single call raises HTTP 500
while the batch call returns a normal partial response with
`completed = 0` and the failure message. -/
theorem single_matches_batch_m1 {π α : Type} (loc : π) (i : Nat) (r : JobResult α) :
    (getJob loc (i, r)).dispatched = (processLocations [loc] [(i, r)]).dispatched ∧
    (∀ v : α, r.ok = true → r.result = some v →
      (getJob loc (i, r)).response = .ok (some v) ∧
      (processLocations [loc] [(i, r)]).response = .ok ⟨1, 1, [v], ""⟩) ∧
    (r.ok = false →
      (getJob loc (i, r)).response =
        .error ⟨500, "Processing-one failed: No active exception to re-raise"⟩ ∧
      (processLocations [loc] [(i, r)]).response = .ok ⟨1, 0, [], r.error⟩) := by
  obtain ⟨ok, res, err⟩ := r
  refine ⟨rfl, ?_, ?_⟩
  · rintro v rfl rfl
    exact ⟨rfl, rfl⟩
  · rintro rfl
    exact ⟨rfl, rfl⟩

/-- Witness for C8 (amended): a successful job with value 7 gives the same
value through both calls. -/
theorem single_matches_batch_m1_witness :
    ((⟨true, some 7, ""⟩ : JobResult Nat).ok = true ∧
      (⟨true, some 7, ""⟩ : JobResult Nat).result = some 7) ∧
    ((getJob () ((0, ⟨true, some 7, ""⟩) : Nat × JobResult Nat)).response =
        .ok (some 7) ∧
      (processLocations [()] [((0, ⟨true, some 7, ""⟩) : Nat × JobResult Nat)]).response =
        .ok ⟨1, 1, [7], ""⟩) :=
  ⟨⟨rfl, rfl⟩, (single_matches_batch_m1 () 0 ⟨true, some 7, ""⟩).2.1 7 rfl rfl⟩

end TrafficApi

namespace TrafficApi

theorem dictInsert_of_not_mem {α : Type} (d : List (Nat × JobResult α)) (k : Nat)
    (v : JobResult α) (h : ∀ p ∈ d, p.1 ≠ k) : dictInsert d k v = d ++ [(k, v)] := by
  have hany : d.any (fun p => p.1 == k) = false := by
    rw [List.any_eq_false]
    intro p hp
    simpa using h p hp
  simp [dictInsert, hany]

theorem collectLoop_eq {α : Type} (cs : List (Nat × JobResult α)) :
    ∀ d es, (∀ p ∈ cs, ∀ q ∈ d, p.1 ≠ q.1) → (cs.map Prod.fst).Nodup →
    collectLoop d es cs =
      (d ++ cs.filter (fun c => c.2.ok),
       es ++ (cs.filter (fun c => !c.2.ok)).map (fun c => c.2.error)) := by
  induction cs with
  | nil => intro d es _ _; simp [collectLoop]
  | cons c cs ih =>
    intro d es hdisj hnodup
    obtain ⟨i, r⟩ := c
    rw [List.map_cons, List.nodup_cons] at hnodup
    by_cases hok : r.ok
    · have hins : dictInsert d i r = d ++ [(i, r)] := by
        apply dictInsert_of_not_mem
        intro q hq
        exact fun he => (hdisj (i, r) (List.mem_cons_self _ _) q hq) he.symm
      have hdisj2 : ∀ p ∈ cs, ∀ q ∈ d ++ [(i, r)], p.1 ≠ q.1 := by
        intro p hp q hq
        rcases List.mem_append.mp hq with hq | hq
        · exact hdisj p (List.mem_cons_of_mem _ hp) q hq
        · rcases List.mem_singleton.mp hq with rfl
          intro he
          exact hnodup.1 (he ▸ List.mem_map_of_mem Prod.fst hp)
      simp only [collectLoop, hok, if_true, hins]
      rw [ih (d ++ [(i, r)]) es hdisj2 hnodup.2]
      simp [hok, List.filter_cons, List.append_assoc]
    · have hdisj2 : ∀ p ∈ cs, ∀ q ∈ d, p.1 ≠ q.1 := fun p hp =>
        hdisj p (List.mem_cons_of_mem _ hp)
      simp only [collectLoop, hok, if_false]
      rw [ih d (es ++ [r.error]) hdisj2 hnodup.2]
      simp [hok, List.filter_cons, List.append_assoc]

theorem insertByKey_perm {α : Type} (x : Nat × JobResult α)
    (l : List (Nat × JobResult α)) : (insertByKey x l).Perm (x :: l) := by
  induction l with
  | nil => simp [insertByKey]
  | cons y ys ih =>
    by_cases h : x.1 ≤ y.1
    · simp [insertByKey, h]
    · simp only [insertByKey, if_neg h]
      exact (ih.cons y).trans (List.Perm.swap x y ys)

theorem sortByKey_perm {α : Type} (l : List (Nat × JobResult α)) :
    (sortByKey l).Perm l := by
  induction l with
  | nil => simp [sortByKey]
  | cons x xs ih => exact (insertByKey_perm x (sortByKey xs)).trans (ih.cons x)

theorem insertByKey_pairwise {α : Type} (x : Nat × JobResult α)
    (l : List (Nat × JobResult α))
    (h : l.Pairwise (fun a b => a.1 ≤ b.1)) :
    (insertByKey x l).Pairwise (fun a b => a.1 ≤ b.1) := by
  induction l with
  | nil => simp [insertByKey]
  | cons y ys ih =>
    rw [List.pairwise_cons] at h
    by_cases hle : x.1 ≤ y.1
    · simp only [insertByKey, if_pos hle]
      refine List.Pairwise.cons ?_ (List.Pairwise.cons h.1 h.2)
      intro b hb
      rcases List.mem_cons.mp hb with rfl | hb
      · exact hle
      · exact le_trans hle (h.1 b hb)
    · simp only [insertByKey, if_neg hle]
      refine List.Pairwise.cons ?_ (ih h.2)
      intro b hb
      rcases List.mem_cons.mp ((insertByKey_perm x ys).mem_iff.mp hb) with rfl | hb
      · exact Nat.le_of_not_le hle
      · exact h.1 b hb

theorem sortByKey_pairwise {α : Type} (l : List (Nat × JobResult α)) :
    (sortByKey l).Pairwise (fun a b => a.1 ≤ b.1) := by
  induction l with
  | nil => simp [sortByKey]
  | cons x xs ih => exact insertByKey_pairwise x (sortByKey xs) ih

theorem filter_over_map {β γ : Type} (f : β → γ) (p : γ → Bool) (l : List β) :
    (l.map f).filter p = (l.filter (fun b => p (f b))).map f := by
  induction l with
  | nil => rfl
  | cons b bs ih => by_cases h : p (f b) <;> simp [List.filter_cons, h, ih]

theorem eq_keys_map {α : Type} (outcome : Nat → JobResult α)
    (l : List (Nat × JobResult α)) (h : ∀ p ∈ l, p.2 = outcome p.1) :
    l = (l.map Prod.fst).map (fun i => (i, outcome i)) := by
  induction l with
  | nil => rfl
  | cons p ps ih =>
    have hp := h p (List.mem_cons_self p ps)
    have hps := ih (fun q hq => h q (List.mem_cons_of_mem p hq))
    simp only [List.map_cons]
    rw [← hps, ← hp]

theorem canonicalResults_map_fst {α : Type} (outcome : Nat → JobResult α) (M : Nat) :
    (canonicalResults outcome M).map Prod.fst = List.range M := by
  simp only [canonicalResults, List.map_map]
  exact List.map_id (List.range M)

theorem filterMap_filter_isSome {β γ : Type} (g : β → Option γ) (l : List β) :
    (l.filter (fun b => (g b).isSome)).filterMap g = l.filterMap g := by
  induction l with
  | nil => rfl
  | cons b bs ih =>
    cases hg : g b <;> simp [List.filter_cons, List.filterMap_cons, hg, ih]

theorem sortByKey_collect {α : Type} (outcome : Nat → JobResult α) (M : Nat)
    (cs : List (Nat × JobResult α))
    (hperm : cs.Perm (canonicalResults outcome M)) :
    sortByKey (collectLoop [] [] cs).1 =
      ((List.range M).filter (fun i => (outcome i).ok)).map
        (fun i => (i, outcome i)) := by
  have hkeys : (cs.map Prod.fst).Perm (List.range M) := by
    simpa [canonicalResults_map_fst] using hperm.map Prod.fst
  have hnodup : (cs.map Prod.fst).Nodup := hkeys.nodup_iff.mpr (List.nodup_range M)
  have hdict : (collectLoop [] [] cs).1 = cs.filter (fun c => c.2.ok) := by
    rw [collectLoop_eq cs [] [] (by intro p _ q hq; cases hq) hnodup]
    rfl
  have hpermT : (cs.filter (fun c => c.2.ok)).Perm
      (((List.range M).filter (fun i => (outcome i).ok)).map
        (fun i => (i, outcome i))) := by
    have hf := hperm.filter (fun c => c.2.ok)
    rw [canonicalResults, filter_over_map] at hf
    exact hf
  have hLperm : (sortByKey (collectLoop [] [] cs).1).Perm
      (((List.range M).filter (fun i => (outcome i).ok)).map
        (fun i => (i, outcome i))) := by
    rw [hdict]
    exact (sortByKey_perm _).trans hpermT
  have hsnd : ∀ p ∈ sortByKey (collectLoop [] [] cs).1, p.2 = outcome p.1 := by
    intro p hp
    have hpT := hLperm.mem_iff.mp hp
    rcases List.mem_map.mp hpT with ⟨i, _, rfl⟩
    rfl
  have hLeq := eq_keys_map outcome _ hsnd
  have hkeysPerm : ((sortByKey (collectLoop [] [] cs).1).map Prod.fst).Perm
      ((List.range M).filter (fun i => (outcome i).ok)) := by
    have := hLperm.map Prod.fst
    rwa [List.map_map, show (Prod.fst ∘ fun i => (i, outcome i)) = id from rfl,
      List.map_id] at this
  have hLsorted : ((sortByKey (collectLoop [] [] cs).1).map Prod.fst).Pairwise
      (· ≤ ·) :=
    List.Pairwise.map Prod.fst (fun _ _ hab => hab) (sortByKey_pairwise _)
  have hTsorted : ((List.range M).filter (fun i => (outcome i).ok)).Pairwise
      (· ≤ ·) :=
    List.Pairwise.filter _ (List.sorted_le_range M)
  have hkeysEq : (sortByKey (collectLoop [] [] cs).1).map Prod.fst =
      (List.range M).filter (fun i => (outcome i).ok) :=
    List.eq_of_perm_of_sorted hkeysPerm hLsorted hTsorted
  rw [hLeq, hkeysEq]

end TrafficApi

namespace TrafficApi

theorem processLocations_response {π α : Type} (locations : List π)
    (stream : List (Nat × JobResult α))
    (hne : locations ≠ []) (hle : locations.length ≤ 20) :
    (processLocations locations stream).response = .ok
      { locations_count := locations.length
        completed :=
          (orderedResults (collectLoop [] []
            (stream.take locations.length)).1).length
        result :=
          (orderedResults (collectLoop [] []
            (stream.take locations.length)).1).filterMap (fun p => p.2.result)
        error := String.intercalate "\n"
          (collectLoop [] [] (stream.take locations.length)).2 } := by
  have h1 : locations.isEmpty = false := by
    cases locations with
    | nil => exact absurd rfl hne
    | cons a l => rfl
  have h2 : ¬ locations.length > 20 := by omega
  unfold processLocations
  rw [if_neg (by simp [h1]), if_neg h2]

theorem processLocations_trace {π α : Type} (locations : List π)
    (stream : List (Nat × JobResult α))
    (hne : locations ≠ []) (hle : locations.length ≤ 20) :
    (processLocations locations stream).dispatched = locations.enum ∧
    (processLocations locations stream).retrieved =
      stream.take locations.length := by
  have h1 : locations.isEmpty = false := by
    cases locations with
    | nil => exact absurd rfl hne
    | cons a l => rfl
  have h2 : ¬ locations.length > 20 := by omega
  unfold processLocations
  rw [if_neg (by simp [h1]), if_neg h2]
  exact ⟨rfl, rfl⟩

theorem processLocations_ok {π α : Type} (locations : List π)
    (stream : List (Nat × JobResult α)) (outcome : Nat → JobResult α)
    (h1 : locations ≠ []) (h2 : locations.length ≤ 20)
    (hlen : stream.length = locations.length)
    (hperm : stream.Perm (canonicalResults outcome locations.length)) :
    (processLocations locations stream).response = .ok
      { locations_count := locations.length
        completed := (((List.range locations.length).filter
            (fun i => (outcome i).ok)).filter
              (fun i => ((outcome i).result).isSome)).length
        result := ((List.range locations.length).filter
            (fun i => (outcome i).ok)).filterMap (fun i => (outcome i).result)
        error := String.intercalate "\n"
          ((stream.filter (fun c => !c.2.ok)).map (fun c => c.2.error)) } := by
  have htake : stream.take locations.length = stream := by
    rw [← hlen]
    exact List.take_length stream
  have hkeys : (stream.map Prod.fst).Perm (List.range locations.length) := by
    simpa [canonicalResults_map_fst] using hperm.map Prod.fst
  have hnodup : (stream.map Prod.fst).Nodup :=
    hkeys.nodup_iff.mpr (List.nodup_range _)
  have hcollect := collectLoop_eq stream [] [] (by intro p _ q hq; cases hq) hnodup
  have hordered : orderedResults (collectLoop [] [] stream).1 =
      (((List.range locations.length).filter (fun i => (outcome i).ok)).filter
        (fun i => ((outcome i).result).isSome)).map (fun i => (i, outcome i)) := by
    rw [orderedResults, sortByKey_collect outcome locations.length stream hperm]
    simp only [filter_over_map]
  have herr : (collectLoop [] [] stream).2 =
      (stream.filter (fun c => !c.2.ok)).map (fun c => c.2.error) := by
    rw [hcollect]
    rfl
  rw [processLocations_response locations stream h1 h2, htake, hordered, herr]
  simp only [List.length_map, List.filterMap_map, Function.comp_def]
  rw [filterMap_filter_isSome]

theorem filterMap_filter_eq_ite {β γ : Type} (p : β → Bool) (g : β → Option γ)
    (l : List β) :
    (l.filter p).filterMap g =
      l.filterMap (fun b => if p b then g b else none) := by
  induction l with
  | nil => rfl
  | cons b bs ih =>
    by_cases h : p b <;> cases hg : g b <;>
      simp [List.filter_cons, List.filterMap_cons, h, hg, ih]

theorem length_filterMap_of_isSome {β γ : Type} (g : β → Option γ) (l : List β)
    (h : ∀ b ∈ l, (g b).isSome = true) : (l.filterMap g).length = l.length := by
  induction l with
  | nil => rfl
  | cons b bs ih =>
    have hb := h b (List.mem_cons_self b bs)
    cases hg : g b
    · rw [hg] at hb
      cases hb
    · simp [List.filterMap_cons, hg,
        ih (fun q hq => h q (List.mem_cons_of_mem b hq))]

theorem length_filter_lt_of_mem_not {β : Type} (p : β → Bool) (l : List β) (x : β)
    (hx : x ∈ l) (hpx : p x = false) : (l.filter p).length < l.length := by
  induction l with
  | nil => cases hx
  | cons b bs ih =>
    rcases List.mem_cons.mp hx with rfl | hx
    · rw [List.filter_cons, hpx]
      simp only [Bool.false_eq_true, if_false, List.length_cons]
      exact Nat.lt_succ_of_le (List.length_filter_le p bs)
    · by_cases hb : p b
      · rw [List.filter_cons, hb]
        simpa [Nat.succ_lt_succ_iff] using ih hx
      · rw [List.filter_cons]
        simp only [hb, Bool.false_eq_true, if_false, List.length_cons]
        exact Nat.lt_succ_of_lt (ih hx)

theorem worker_steps_jobs_length {π α : Type}
    (analyze : π → Except String (Option α)) (js : List (Nat × π)) :
    ((worker_steps analyze ((js.map (fun j => JobMsg.job j.1 j.2)) ++
      [JobMsg.stop])).1).length = js.length := by
  induction js with
  | nil => rfl
  | cons j js ih => simpa [worker_steps] using ih

end TrafficApi

namespace TrafficApi

/-- C1: for a dispatched batch the ordered success list of the response
contains the success values sorted ascending by submission index — the
completion stream may arrive in any order (any permutation of the indexed
outcomes), and every success value occurs (when successes carry a value,
the list has one entry per successful index). -/
theorem batch_success_values_ordered {π α : Type} (locations : List π)
    (stream : List (Nat × JobResult α)) (outcome : Nat → JobResult α)
    (h1 : locations ≠ []) (h2 : locations.length ≤ 20)
    (hlen : stream.length = locations.length)
    (hperm : stream.Perm (canonicalResults outcome locations.length))
    (hSome : ∀ i < locations.length, (outcome i).ok = true →
      ((outcome i).result).isSome = true) :
    ∃ resp, (processLocations locations stream).response = .ok resp ∧
      resp.result = (List.range locations.length).filterMap
        (fun i => if (outcome i).ok then (outcome i).result else none) ∧
      resp.result.length =
        ((List.range locations.length).filter (fun i => (outcome i).ok)).length := by
  refine ⟨_, processLocations_ok locations stream outcome h1 h2 hlen hperm, ?_, ?_⟩
  · exact filterMap_filter_eq_ite _ _ _
  · apply length_filterMap_of_isSome
    intro i hi
    rcases List.mem_filter.mp hi with ⟨hr, hok⟩
    exact hSome i (List.mem_range.mp hr) hok

/-- Witness for C1: jobs 0,1,2 with completions arriving 2,0,1 give the
success list in submission order. -/
theorem batch_success_values_ordered_witness :
    ((([(), (), ()] : List Unit) ≠ []) ∧
      ([(), (), ()] : List Unit).length ≤ 20 ∧
      ([(2, ⟨true, some 12, ""⟩), (0, ⟨true, some 10, ""⟩),
        (1, ⟨true, some 11, ""⟩)] : List (Nat × JobResult Nat)).length =
        ([(), (), ()] : List Unit).length ∧
      ([(2, ⟨true, some 12, ""⟩), (0, ⟨true, some 10, ""⟩),
        (1, ⟨true, some 11, ""⟩)] : List (Nat × JobResult Nat)).Perm
        (canonicalResults (fun i => ⟨true, some (10 + i), ""⟩)
          ([(), (), ()] : List Unit).length) ∧
      (∀ i < ([(), (), ()] : List Unit).length,
        ((fun i => (⟨true, some (10 + i), ""⟩ : JobResult Nat)) i).ok = true →
        (((fun i => (⟨true, some (10 + i), ""⟩ : JobResult Nat)) i).result).isSome
          = true)) ∧
    (∃ resp, (processLocations ([(), (), ()] : List Unit)
        [(2, ⟨true, some 12, ""⟩), (0, ⟨true, some 10, ""⟩),
          (1, ⟨true, some 11, ""⟩)]).response = .ok resp ∧
      resp.result = (List.range ([(), (), ()] : List Unit).length).filterMap
        (fun i => if ((fun i => (⟨true, some (10 + i), ""⟩ : JobResult Nat)) i).ok
          then ((fun i => (⟨true, some (10 + i), ""⟩ : JobResult Nat)) i).result
          else none) ∧
      resp.result.length = ((List.range ([(), (), ()] : List Unit).length).filter
        (fun i => ((fun i => (⟨true, some (10 + i), ""⟩ : JobResult Nat)) i).ok)).length) :=
  ⟨⟨by decide, by decide, rfl, by decide, by decide⟩,
    batch_success_values_ordered [(), (), ()] _
      (fun i => ⟨true, some (10 + i), ""⟩)
      (by decide) (by decide) rfl (by decide) (by decide)⟩

/-- C2: a batch with failures never aborts — the response carries the
submitted count, a completed count equal to the number of successful jobs,
the ordered success values of exactly the successful indices, and an error
string joining exactly the failure messages (one per failing job). -/
theorem batch_partial_failure {π α : Type} (locations : List π)
    (stream : List (Nat × JobResult α)) (outcome : Nat → JobResult α)
    (h1 : locations ≠ []) (h2 : locations.length ≤ 20)
    (hlen : stream.length = locations.length)
    (hperm : stream.Perm (canonicalResults outcome locations.length))
    (hSome : ∀ i < locations.length, (outcome i).ok = true →
      ((outcome i).result).isSome = true)
    (hfail : ∃ i, i < locations.length ∧ (outcome i).ok = false)
    (hsucc : ∃ i, i < locations.length ∧ (outcome i).ok = true) :
    ∃ resp, (processLocations locations stream).response = .ok resp ∧
      resp.locations_count = locations.length ∧
      resp.completed =
        ((List.range locations.length).filter (fun i => (outcome i).ok)).length ∧
      0 < resp.completed ∧
      resp.result = ((List.range locations.length).filter
        (fun i => (outcome i).ok)).filterMap (fun i => (outcome i).result) ∧
      resp.result.length = resp.completed ∧
      resp.error = String.intercalate "\n"
        ((stream.filter (fun c => !c.2.ok)).map (fun c => c.2.error)) ∧
      (stream.filter (fun c => !c.2.ok)).length =
        ((List.range locations.length).filter (fun i => !(outcome i).ok)).length ∧
      0 < (stream.filter (fun c => !c.2.ok)).length := by
  have hself : ((List.range locations.length).filter
      (fun i => (outcome i).ok)).filter
        (fun i => ((outcome i).result).isSome) =
      (List.range locations.length).filter (fun i => (outcome i).ok) := by
    apply List.filter_eq_self.mpr
    intro i hi
    rcases List.mem_filter.mp hi with ⟨hr, hok⟩
    exact hSome i (List.mem_range.mp hr) hok
  have hflen : (stream.filter (fun c => !c.2.ok)).length =
      ((List.range locations.length).filter (fun i => !(outcome i).ok)).length := by
    have hf := (hperm.filter (fun c => !c.2.ok)).length_eq
    rw [canonicalResults, filter_over_map] at hf
    simpa using hf
  refine ⟨_, processLocations_ok locations stream outcome h1 h2 hlen hperm,
    rfl, ?_, ?_, rfl, ?_, rfl, hflen, ?_⟩
  · rw [hself]
  · rw [hself]
    obtain ⟨i, hi, hok⟩ := hsucc
    exact List.length_pos.mpr
      (List.ne_nil_of_mem (List.mem_filter.mpr ⟨List.mem_range.mpr hi, hok⟩))
  · rw [← filterMap_filter_isSome]
    apply length_filterMap_of_isSome
    intro b hb
    exact (List.mem_filter.mp hb).2
  · rw [hflen]
    obtain ⟨i, hi, hok⟩ := hfail
    exact List.length_pos.mpr
      (List.ne_nil_of_mem (List.mem_filter.mpr
        ⟨List.mem_range.mpr hi, by simp [hok]⟩))

/-- Witness for C2: 3 jobs, index 1 fails, completions arrive 2,1,0 —
`completed = 2`, two ordered success values, exactly one failure
message. -/
theorem batch_partial_failure_witness :
    ((([(), (), ()] : List Unit) ≠ []) ∧
      ([(), (), ()] : List Unit).length ≤ 20 ∧
      ([(2, ⟨true, some 12, ""⟩), (1, ⟨false, none, "boom"⟩),
        (0, ⟨true, some 10, ""⟩)] : List (Nat × JobResult Nat)).length =
        ([(), (), ()] : List Unit).length ∧
      ([(2, ⟨true, some 12, ""⟩), (1, ⟨false, none, "boom"⟩),
        (0, ⟨true, some 10, ""⟩)] : List (Nat × JobResult Nat)).Perm
        (canonicalResults (fun i => if i = 1 then ⟨false, none, "boom"⟩
          else ⟨true, some (10 + i), ""⟩) ([(), (), ()] : List Unit).length) ∧
      (∀ i < ([(), (), ()] : List Unit).length,
        ((fun i => if i = 1 then (⟨false, none, "boom"⟩ : JobResult Nat)
          else ⟨true, some (10 + i), ""⟩) i).ok = true →
        (((fun i => if i = 1 then (⟨false, none, "boom"⟩ : JobResult Nat)
          else ⟨true, some (10 + i), ""⟩) i).result).isSome = true) ∧
      (∃ i, i < ([(), (), ()] : List Unit).length ∧
        ((fun i => if i = 1 then (⟨false, none, "boom"⟩ : JobResult Nat)
          else ⟨true, some (10 + i), ""⟩) i).ok = false) ∧
      (∃ i, i < ([(), (), ()] : List Unit).length ∧
        ((fun i => if i = 1 then (⟨false, none, "boom"⟩ : JobResult Nat)
          else ⟨true, some (10 + i), ""⟩) i).ok = true)) ∧
    (∃ resp, (processLocations ([(), (), ()] : List Unit)
        [(2, ⟨true, some 12, ""⟩), (1, ⟨false, none, "boom"⟩),
          (0, ⟨true, some 10, ""⟩)]).response = .ok resp ∧
      resp.locations_count = ([(), (), ()] : List Unit).length ∧
      resp.completed = ((List.range ([(), (), ()] : List Unit).length).filter
        (fun i => ((fun i => if i = 1 then (⟨false, none, "boom"⟩ : JobResult Nat)
          else ⟨true, some (10 + i), ""⟩) i).ok)).length ∧
      0 < resp.completed ∧
      resp.result = ((List.range ([(), (), ()] : List Unit).length).filter
        (fun i => ((fun i => if i = 1 then (⟨false, none, "boom"⟩ : JobResult Nat)
          else ⟨true, some (10 + i), ""⟩) i).ok)).filterMap
        (fun i => ((fun i => if i = 1 then (⟨false, none, "boom"⟩ : JobResult Nat)
          else ⟨true, some (10 + i), ""⟩) i).result) ∧
      resp.result.length = resp.completed ∧
      resp.error = String.intercalate "\n"
        ((([(2, ⟨true, some 12, ""⟩), (1, ⟨false, none, "boom"⟩),
          (0, ⟨true, some 10, ""⟩)] : List (Nat × JobResult Nat)).filter
            (fun c => !c.2.ok)).map (fun c => c.2.error)) ∧
      (([(2, ⟨true, some 12, ""⟩), (1, ⟨false, none, "boom"⟩),
        (0, ⟨true, some 10, ""⟩)] : List (Nat × JobResult Nat)).filter
          (fun c => !c.2.ok)).length =
        ((List.range ([(), (), ()] : List Unit).length).filter
          (fun i => !((fun i => if i = 1 then (⟨false, none, "boom"⟩ : JobResult Nat)
            else ⟨true, some (10 + i), ""⟩) i).ok)).length ∧
      0 < (([(2, ⟨true, some 12, ""⟩), (1, ⟨false, none, "boom"⟩),
        (0, ⟨true, some 10, ""⟩)] : List (Nat × JobResult Nat)).filter
          (fun c => !c.2.ok)).length) :=
  ⟨⟨by decide, by decide, rfl, by decide, by decide, by decide, by decide⟩,
    batch_partial_failure [(), (), ()] _
      (fun i => if i = 1 then ⟨false, none, "boom"⟩ else ⟨true, some (10 + i), ""⟩)
      (by decide) (by decide) rfl (by decide) (by decide) (by decide) (by decide)⟩

/-- C10: a retrieved result with `ok = True` but a `None` result value is
silently dropped by the `ordered_results` filter: it is excluded from the
success list and from `completed`, and contributes nothing to the error
string, so `completed` is strictly smaller than the number of successful
outcomes retrieved. -/
theorem success_none_excluded {π α : Type} (locations : List π)
    (stream : List (Nat × JobResult α)) (outcome : Nat → JobResult α) (j : Nat)
    (h1 : locations ≠ []) (h2 : locations.length ≤ 20)
    (hlen : stream.length = locations.length)
    (hperm : stream.Perm (canonicalResults outcome locations.length))
    (hj : j < locations.length) (hok : (outcome j).ok = true)
    (hnone : (outcome j).result = none) :
    ∃ resp, (processLocations locations stream).response = .ok resp ∧
      resp.completed = (((List.range locations.length).filter
        (fun i => (outcome i).ok)).filter
          (fun i => ((outcome i).result).isSome)).length ∧
      resp.completed <
        ((List.range locations.length).filter (fun i => (outcome i).ok)).length ∧
      resp.result = ((List.range locations.length).filter
        (fun i => (outcome i).ok)).filterMap (fun i => (outcome i).result) ∧
      resp.result.length = resp.completed ∧
      resp.error = String.intercalate "\n"
        ((stream.filter (fun c => !c.2.ok)).map (fun c => c.2.error)) := by
  refine ⟨_, processLocations_ok locations stream outcome h1 h2 hlen hperm,
    rfl, ?_, rfl, ?_, rfl⟩
  · apply length_filter_lt_of_mem_not _ _ j
    · exact List.mem_filter.mpr ⟨List.mem_range.mpr hj, hok⟩
    · simp [hnone]
  · rw [← filterMap_filter_isSome]
    apply length_filterMap_of_isSome
    intro b hb
    exact (List.mem_filter.mp hb).2

/-- Witness for C10: 3 jobs, all `ok`, but job 1 carries a `None` result —
`completed` drops to 2 while 3 successful outcomes were retrieved. -/
theorem success_none_excluded_witness :
    ((([(), (), ()] : List Unit) ≠ []) ∧
      ([(), (), ()] : List Unit).length ≤ 20 ∧
      ([(1, ⟨true, none, ""⟩), (0, ⟨true, some 10, ""⟩),
        (2, ⟨true, some 12, ""⟩)] : List (Nat × JobResult Nat)).length =
        ([(), (), ()] : List Unit).length ∧
      ([(1, ⟨true, none, ""⟩), (0, ⟨true, some 10, ""⟩),
        (2, ⟨true, some 12, ""⟩)] : List (Nat × JobResult Nat)).Perm
        (canonicalResults (fun i => if i = 1 then ⟨true, none, ""⟩
          else ⟨true, some (10 + i), ""⟩) ([(), (), ()] : List Unit).length) ∧
      1 < ([(), (), ()] : List Unit).length ∧
      ((fun i => if i = 1 then (⟨true, none, ""⟩ : JobResult Nat)
        else ⟨true, some (10 + i), ""⟩) 1).ok = true ∧
      ((fun i => if i = 1 then (⟨true, none, ""⟩ : JobResult Nat)
        else ⟨true, some (10 + i), ""⟩) 1).result = none) ∧
    (∃ resp, (processLocations ([(), (), ()] : List Unit)
        [(1, ⟨true, none, ""⟩), (0, ⟨true, some 10, ""⟩),
          (2, ⟨true, some 12, ""⟩)]).response = .ok resp ∧
      resp.completed = (((List.range ([(), (), ()] : List Unit).length).filter
        (fun i => ((fun i => if i = 1 then (⟨true, none, ""⟩ : JobResult Nat)
          else ⟨true, some (10 + i), ""⟩) i).ok)).filter
          (fun i => (((fun i => if i = 1 then (⟨true, none, ""⟩ : JobResult Nat)
            else ⟨true, some (10 + i), ""⟩) i).result).isSome)).length ∧
      resp.completed < ((List.range ([(), (), ()] : List Unit).length).filter
        (fun i => ((fun i => if i = 1 then (⟨true, none, ""⟩ : JobResult Nat)
          else ⟨true, some (10 + i), ""⟩) i).ok)).length ∧
      resp.result = ((List.range ([(), (), ()] : List Unit).length).filter
        (fun i => ((fun i => if i = 1 then (⟨true, none, ""⟩ : JobResult Nat)
          else ⟨true, some (10 + i), ""⟩) i).ok)).filterMap
        (fun i => ((fun i => if i = 1 then (⟨true, none, ""⟩ : JobResult Nat)
          else ⟨true, some (10 + i), ""⟩) i).result) ∧
      resp.result.length = resp.completed ∧
      resp.error = String.intercalate "\n"
        ((([(1, ⟨true, none, ""⟩), (0, ⟨true, some 10, ""⟩),
          (2, ⟨true, some 12, ""⟩)] : List (Nat × JobResult Nat)).filter
            (fun c => !c.2.ok)).map (fun c => c.2.error))) :=
  ⟨⟨by decide, by decide, rfl, by decide, by decide, by decide, by decide⟩,
    success_none_excluded [(), (), ()] _
      (fun i => if i = 1 then ⟨true, none, ""⟩ else ⟨true, some (10 + i), ""⟩) 1
      (by decide) (by decide) rfl (by decide) (by decide) (by decide) (by decide)⟩

/-- C4: for a dispatched batch of M jobs the correlator assigns indices
0..M-1 in submission order, dispatches all M jobs, performs exactly M
blocking retrievals; and on the worker side, however the M dispatched jobs
are partitioned among workers, the workers push exactly one result per job
— M results in total become retrievable. -/
theorem batch_dispatch_retrieval_invariant {π α : Type} (locations : List π)
    (stream : List (Nat × JobResult α))
    (h1 : locations ≠ []) (h2 : locations.length ≤ 20)
    (h3 : locations.length ≤ stream.length) :
    (processLocations locations stream).dispatched.map Prod.fst =
      List.range locations.length ∧
    (processLocations locations stream).dispatched.map Prod.snd = locations ∧
    (processLocations locations stream).retrieved.length = locations.length ∧
    ∀ (analyze : π → Except String (Option α)) (parts : List (List (Nat × π))),
      parts.flatten.Perm (processLocations locations stream).dispatched →
      (parts.map (fun js =>
        ((worker_steps analyze ((js.map (fun j => JobMsg.job j.1 j.2)) ++
          [JobMsg.stop])).1).length)).sum = locations.length := by
  obtain ⟨hd, hr⟩ := processLocations_trace locations stream h1 h2
  refine ⟨?_, ?_, ?_, ?_⟩
  · rw [hd]
    exact List.enum_map_fst locations
  · rw [hd]
    exact List.enum_map_snd locations
  · rw [hr, List.length_take]
    exact Nat.min_eq_left h3
  · intro analyze parts hp
    have hmap : parts.map (fun js =>
        ((worker_steps analyze ((js.map (fun j => JobMsg.job j.1 j.2)) ++
          [JobMsg.stop])).1).length) = parts.map List.length :=
      List.map_congr_left (fun js _ => worker_steps_jobs_length analyze js)
    rw [hmap, ← List.length_flatten, hp.length_eq, hd, List.enum_length]

/-- Witness for C4: a batch of two jobs, split one job per worker. -/
theorem batch_dispatch_retrieval_invariant_witness :
    ((([(), ()] : List Unit) ≠ []) ∧
      ([(), ()] : List Unit).length ≤ 20 ∧
      ([(), ()] : List Unit).length ≤
        ([(0, ⟨true, some 10, ""⟩), (1, ⟨true, some 11, ""⟩)] :
          List (Nat × JobResult Nat)).length) ∧
    ((processLocations ([(), ()] : List Unit)
        [(0, ⟨true, some 10, ""⟩), (1, ⟨true, some 11, ""⟩)]).dispatched.map
          Prod.fst = List.range ([(), ()] : List Unit).length ∧
      (processLocations ([(), ()] : List Unit)
        [(0, ⟨true, some 10, ""⟩), (1, ⟨true, some 11, ""⟩)]).dispatched.map
          Prod.snd = ([(), ()] : List Unit) ∧
      (processLocations ([(), ()] : List Unit)
        [(0, ⟨true, some 10, ""⟩), (1, ⟨true, some 11, ""⟩)]).retrieved.length =
        ([(), ()] : List Unit).length ∧
      ∀ (analyze : Unit → Except String (Option Nat))
        (parts : List (List (Nat × Unit))),
        parts.flatten.Perm (processLocations ([(), ()] : List Unit)
          [(0, ⟨true, some 10, ""⟩), (1, ⟨true, some 11, ""⟩)]).dispatched →
        (parts.map (fun js =>
          ((worker_steps analyze ((js.map (fun j => JobMsg.job j.1 j.2)) ++
            [JobMsg.stop])).1).length)).sum = ([(), ()] : List Unit).length) :=
  ⟨⟨by decide, by decide, by decide⟩,
    batch_dispatch_retrieval_invariant ([(), ()] : List Unit)
      [(0, ⟨true, some 10, ""⟩), (1, ⟨true, some 11, ""⟩)]
      (by decide) (by decide) (by decide)⟩

end TrafficApi
